import Mathlib

/-!
Verification of the `easyocr-server` OCR pipeline (`src/easyocr-server/main.py`)
against its natural-language specification.

The Python source is shallowly embedded as executable Lean definitions:
real-valued pixel coordinates become rationals, byte strings become lists of
naturals, the filesystem becomes an association list of paths to contents,
and the external collaborators (the `easyocr` engine, `werkzeug`'s
`secure_filename`, `base64.b64decode`) are opaque function parameters, as the
spec treats them as black boxes.
-/

namespace EasyOcrServer

/-- A 2D point with real-valued (rational) pixel coordinates. -/
structure Point where
  x : ℚ
  y : ℚ
deriving DecidableEq, Repr

/-- A quadrilateral `item[0]` as returned by the engine: four ordered corner
points `p0, p1, p2, p3`. -/
structure Quad where
  p0 : Point
  p1 : Point
  p2 : Point
  p3 : Point
deriving DecidableEq, Repr

/-- One engine detection `item = (quad, text, confidence)`. -/
structure Detection where
  quad : Quad
  text : String
  confidence : ℚ
deriving DecidableEq, Repr

/-- Python's `int()` conversion applied to a real number: truncation toward
zero, i.e. floor for nonnegative arguments and ceiling for negative ones. -/
def pyInt (q : ℚ) : ℤ := if 0 ≤ q then ⌊q⌋ else ⌈q⌉

/-- The axis-aligned box `{x0, y0, x1, y1}` built by the endpoint. -/
structure BoundingBox where
  x0 : ℤ
  y0 : ℤ
  x1 : ℤ
  y1 : ℤ
deriving DecidableEq, Repr

/-- The bounding-box reducer from `process_ocr`:
`x0 = int(min(item[0][0][0], item[0][3][0]))`,
`y0 = int(min(item[0][0][1], item[0][1][1]))`,
`x1 = int(max(item[0][1][0], item[0][2][0]))`,
`y1 = int(max(item[0][2][1], item[0][3][1]))`. -/
def bbox (q : Quad) : BoundingBox :=
  { x0 := pyInt (min q.p0.x q.p3.x)
    y0 := pyInt (min q.p0.y q.p1.y)
    x1 := pyInt (max q.p1.x q.p2.x)
    y1 := pyInt (max q.p2.y q.p3.y) }

/-- One entry of the `words` array: `{'text': item[1], 'bbox': {...}}`. -/
structure WordResult where
  text : String
  bbox : BoundingBox
deriving DecidableEq, Repr

/-- The response payload `formatted_result = {'text': ..., 'words': ...}`. -/
structure OcrResponse where
  text : String
  words : List WordResult
deriving DecidableEq, Repr

/-- The result assembler from `process_ocr`:
`text = ' '.join([item[1] for item in result])` and
`words = [{'text': item[1], 'bbox': ...} for item in result]`. -/
def formatted_result (result : List Detection) : OcrResponse :=
  { text := String.intercalate " " (result.map (fun item => item.text))
    words := result.map (fun item => { text := item.text, bbox := bbox item.quad }) }

/-- The uploaded file under the `image` key of `request.files`. -/
structure UploadedFile where
  filename : String
  content : List Nat
deriving DecidableEq, Repr

/-- The parts of the incoming request `process_ocr` looks at: the value under
key `image` in `request.files` (if present) and the value under key `image`
in `request.form` (if present). -/
structure PyRequest where
  files : Option UploadedFile
  form : Option String
deriving DecidableEq, Repr

/-- The filesystem, as an association list of path/content pairs; a path
exists when some pair carries it. -/
abbrev FS : Type := List (String × List Nat)

/-- `os.path.exists p`. -/
def FS.pathExists (fs : FS) (p : String) : Bool :=
  fs.any (fun e => e.1 == p)

/-- Writing a file (`file.save(path)` / `open(path, 'wb').write(...)`). -/
def FS.write (fs : FS) (p : String) (c : List Nat) : FS :=
  (p, c) :: fs

/-- `os.remove p`. -/
def FS.remove (fs : FS) (p : String) : FS :=
  fs.filter (fun e => e.1 != p)

/-- `os.path.join a b` for a directory `a` and a bare filename `b`. -/
def pathJoin (a b : String) : String := a ++ "/" ++ b

/-- The body of a response: either the serialized `OcrResponse` (success) or
a JSON object with a single `error` field. -/
inductive RespBody where
  | ok (r : OcrResponse)
  | err (msg : String)
deriving DecidableEq, Repr

/-- An HTTP response: status code and body. -/
structure Response where
  status : Nat
  body : RespBody
deriving DecidableEq, Repr

/-- The 400 message of `process_ocr` when no image is supplied. -/
def missingImageMsg : String :=
  "No image provided. Send a file with field name \"image\" or a base64 encoded image in the request body."

/-- `str(error)` of the `IndexError` raised by `split(',')[1]` when the form
value contains no comma. -/
def indexErrorMsg : String := "list index out of range"

/-- Python's `str.split(',')` on the underlying characters: splits at every
comma, so a string with `k` commas yields `k + 1` fields (the empty string
yields one empty field). -/
def splitCommaChars : List Char → List (List Char)
  | [] => [[]]
  | c :: cs =>
    if c = ',' then [] :: splitCommaChars cs
    else
      match splitCommaChars cs with
      | [] => [[c]]
      | g :: gs => (c :: g) :: gs

/-- `s.split(',')` as a function on strings. -/
def pySplitComma (s : String) : List String :=
  (splitCommaChars s.data).map String.mk

/-- The tail of the `try` block shared by both ingestion modes: invoke the
engine on the temp path, and on success format the result and clean up the
temp file; an engine exception falls to the `except` handler, which returns
500 without touching the file. -/
def ocrStep (engine : String → Except String (List Detection))
    (path : String) (fs : FS) : Response × FS :=
  match engine path with
  | .error e => (⟨500, .err ("Failed to process image: " ++ e)⟩, fs)
  | .ok result =>
      let fs2 := if fs.pathExists path then fs.remove path else fs
      (⟨200, .ok (formatted_result result)⟩, fs2)

/-- Outcome of the image-ingestion head of the `try` block: no image at all
(caught by the early guard), an exception while extracting or decoding the
base64 payload (caught by the `except` handler), or a temp path together
with the bytes written to it. -/
inductive IngestOutcome where
  | missing
  | failure (msg : String)
  | ingested (path : String) (content : List Nat)
deriving DecidableEq, Repr

/-- The ingestion logic of `process_ocr`: file mode writes the upload under
`os.path.join(tempfile.gettempdir(), secure_filename(file.filename))`;
base64 mode takes `request.form['image'].split(',')[1]` (raising
`IndexError` when there is no comma), base64-decodes it (which may raise),
and targets `image-<int(time.time())>.png` in the temp directory. -/
def ingest (secure_filename : String → String)
    (b64decode : String → Except String (List Nat))
    (tmpdir : String) (now : ℤ) (req : PyRequest) : IngestOutcome :=
  match req.files, req.form with
  | none, none => .missing
  | some file, _ =>
      .ingested (pathJoin tmpdir (secure_filename file.filename)) file.content
  | none, some formVal =>
      match (pySplitComma formVal)[1]? with
      | none => .failure indexErrorMsg
      | some base64_data =>
        match b64decode base64_data with
        | .error e => .failure e
        | .ok image_data =>
          .ingested (pathJoin tmpdir ("image-" ++ toString now ++ ".png")) image_data

/-- The `process_ocr` request handler. The external collaborators are
parameters: `secure_filename` (werkzeug), `b64decode` (`base64.b64decode`,
which may raise), `tmpdir` (`tempfile.gettempdir()`), `now`
(`int(time.time())`), and `engine` (`ocr.readtext`, which may raise). The
handler returns the response together with the final filesystem. -/
def process_ocr (secure_filename : String → String)
    (b64decode : String → Except String (List Nat))
    (tmpdir : String) (now : ℤ)
    (engine : String → Except String (List Detection))
    (req : PyRequest) (fs : FS) : Response × FS :=
  match ingest secure_filename b64decode tmpdir now req with
  | .missing => (⟨400, .err missingImageMsg⟩, fs)
  | .failure msg => (⟨500, .err ("Failed to process image: " ++ msg)⟩, fs)
  | .ingested path content => ocrStep engine path (fs.write path content)

/-- A value handed to the JSON encoder's fallback: a numpy wide integer, a
numpy floating-point scalar, a numpy array (possibly nested), or any other
unrecognized object, tagged by its Python class name. -/
inductive NpValue where
  | npInt (n : ℤ)
  | npFloat (x : ℚ)
  | npArray (elems : List NpValue)
  | unknown (tag : String)
deriving Repr

/-- A plain Python value as produced by the encoder: standard int, standard
float, plain (possibly nested) list, or an embedded non-numeric object. -/
inductive PyJson where
  | int (n : ℤ)
  | float (x : ℚ)
  | list (xs : List PyJson)
  | obj (tag : String)
deriving Repr

mutual

/-- `numpy.ndarray.tolist()`: recursively converts an array to a plain list
of standard Python scalars (and a scalar to its standard Python value). -/
def NpValue.tolist : NpValue → PyJson
  | .npInt n => .int n
  | .npFloat x => .float x
  | .npArray xs => .list (NpValue.tolistList xs)
  | .unknown tag => .obj tag

/-- `tolist` element-wise over the entries of an array. -/
def NpValue.tolistList : List NpValue → List PyJson
  | [] => []
  | v :: vs => NpValue.tolist v :: NpValue.tolistList vs

end

/-- `NumpyEncoder.default`: `np.integer → int(obj)`, `np.floating →
float(obj)`, `np.ndarray → obj.tolist()`, anything else falls through to
`json.JSONEncoder.default`, which raises
`TypeError: Object of type <cls> is not JSON serializable`. -/
def NumpyEncoder.default : NpValue → Except String PyJson
  | .npInt n => .ok (.int n)
  | .npFloat x => .ok (.float x)
  | .npArray xs => .ok (NpValue.tolist (.npArray xs))
  | .unknown tag => .error ("Object of type " ++ tag ++ " is not JSON serializable")

/-- The module-level mutable state: the globals `ocr` (the engine instance,
identified by an opaque id) and `is_initialized`. -/
structure ServerState where
  ocr : Option Nat
  is_initialized : Bool
deriving DecidableEq, Repr

/-- `initialize_ocr`: when `ocr is None`, construct a reader (the fresh
instance id is the parameter `reader`) and set `is_initialized = True`;
otherwise do nothing. -/
def initialize_ocr (reader : Nat) (s : ServerState) : ServerState :=
  if s.ocr = none then { ocr := some reader, is_initialized := true } else s

/-- `health_check`: returns `{'status': 'ok', 'ocrInitialized':
is_initialized}` and leaves the state untouched. -/
def health_check (s : ServerState) : ServerState × Bool :=
  (s, s.is_initialized)

/-- The state effect of the head of `process_ocr`:
`if not is_initialized: initialize_ocr()`; the rest of the handler does not
assign to either global. -/
def process_ocr_state (reader : Nat) (s : ServerState) : ServerState :=
  if s.is_initialized then s else initialize_ocr reader s

/-- The characters strictly after the first comma (all of them, further
commas included); the whole input when no comma occurs. -/
def afterFirstComma : List Char → List Char
  | [] => []
  | c :: cs => if c = ',' then cs else afterFirstComma cs

/-- Spec-side reading of the base64 payload (for comparison with the code):
"the payload after the first comma", i.e. the entire remainder of the form
value after its first comma, further commas included. -/
def specBase64Payload (s : String) : String :=
  String.mk (afterFirstComma s.data)

/-- A stand-in base64 decoder used for concrete evaluations: injectively
turns the payload characters into bytes and never fails. -/
def stubDecode (s : String) : List Nat := s.data.map Char.toNat

/-- The stand-in decoder as the `b64decode` collaborator. -/
def stubB64 : String → Except String (List Nat) := fun s => .ok (stubDecode s)

/-- An engine stub that always raises, with message `boom`. -/
def failEngine : String → Except String (List Detection) := fun _ => .error "boom"

/-- An engine stub that always succeeds with zero detections. -/
def emptyEngine : String → Except String (List Detection) := fun _ => .ok []

/-- A quadrilateral whose coordinates are all `-3/2`, for exercising the
reducer on negative fractional input. -/
def negQuad : Quad :=
  ⟨⟨mkRat (-3) 2, mkRat (-3) 2⟩, ⟨mkRat (-3) 2, mkRat (-3) 2⟩,
    ⟨mkRat (-3) 2, mkRat (-3) 2⟩, ⟨mkRat (-3) 2, mkRat (-3) 2⟩⟩

/-- An axis-conventional quadrilateral with nonnegative fractional
coordinates: corners `(1/2, 1/2)`, `(7/2, 1/2)`, `(7/2, 5/2)`,
`(1/2, 5/2)`. -/
def fracQuad : Quad :=
  ⟨⟨mkRat 1 2, mkRat 1 2⟩, ⟨mkRat 7 2, mkRat 1 2⟩,
    ⟨mkRat 7 2, mkRat 5 2⟩, ⟨mkRat 1 2, mkRat 5 2⟩⟩

/-- A detection over `fracQuad` with confidence `9/10`. -/
def wdetA : Detection := ⟨fracQuad, "hello", mkRat 9 10⟩

/-- The same detection as `wdetA` except for its confidence (`1/10`). -/
def wdetB : Detection := ⟨fracQuad, "hello", mkRat 1 10⟩

/-! ## Helper lemmas -/

/-- On nonnegative input, Python `int()` agrees with the floor. -/
theorem pyInt_of_nonneg {q : ℚ} (h : 0 ≤ q) : pyInt q = ⌊q⌋ := if_pos h

/-- Python `int()` (truncation toward zero) is monotone. -/
theorem pyInt_mono {a b : ℚ} (h : a ≤ b) : pyInt a ≤ pyInt b := by
  unfold pyInt
  split
  · split
    · exact Int.floor_mono h
    · exact absurd (le_trans (by assumption) h) (by assumption)
  · split
    · exact le_trans
        (Int.ceil_le.mpr (by exact_mod_cast le_of_lt (lt_of_not_le (by assumption))))
        (Int.floor_nonneg.mpr (by assumption))
    · exact Int.ceil_mono h

/-- The array arm of `tolist` is the element-wise map of `tolist`. -/
theorem NpValue.tolistList_eq_map (xs : List NpValue) :
    NpValue.tolistList xs = xs.map NpValue.tolist := by
  induction xs with
  | nil => rfl
  | cons v vs ih => simp [NpValue.tolistList, ih]

/-! ## Claim theorems -/

/-- C1, code evaluated at the failing input: for the base64 request
`data:,ab,cd` the success branch does remove the temp file, but when the
engine raises (`boom`) the endpoint returns 500 carrying the engine's
message while the temp file `/tmp/image-100.png` still exists afterwards —
contradicting the claim that the temp file is removed on the failure
branch as well. -/
theorem C1_engine_failure_leaks_temp_file :
    (process_ocr id stubB64 "/tmp" 100 emptyEngine
        ⟨none, some "data:,ab,cd"⟩ []).2.pathExists "/tmp/image-100.png" = false ∧
    (process_ocr id stubB64 "/tmp" 100 failEngine ⟨none, some "data:,ab,cd"⟩ []).1
      = ⟨500, .err "Failed to process image: boom"⟩ ∧
    (process_ocr id stubB64 "/tmp" 100 failEngine
        ⟨none, some "data:,ab,cd"⟩ []).2.pathExists "/tmp/image-100.png" = true := by
  exact ⟨by decide, by decide, by decide⟩

/-- C2, counterexample: on the quadrilateral whose coordinates are all
`-3/2`, the reducer's `x0` is `int(-3/2) = -1`, not `floor(-3/2) = -2`, so
the coordinates are not the mathematical floor for all inputs. -/
theorem C2_counterexample :
    ¬ ((bbox negQuad).x0 = ⌊min negQuad.p0.x negQuad.p3.x⌋) := by decide

/-- C2, amended: all four bounding-box coordinates are the mathematical
floor of the selected min/max whenever the selected values are nonnegative
(Python `int()` truncates toward zero, which coincides with the floor
exactly on nonnegative values). -/
theorem C2_bbox_floor_on_nonneg (q : Quad)
    (hx0 : 0 ≤ min q.p0.x q.p3.x) (hy0 : 0 ≤ min q.p0.y q.p1.y)
    (hx1 : 0 ≤ max q.p1.x q.p2.x) (hy1 : 0 ≤ max q.p2.y q.p3.y) :
    bbox q = ⟨⌊min q.p0.x q.p3.x⌋, ⌊min q.p0.y q.p1.y⌋,
      ⌊max q.p1.x q.p2.x⌋, ⌊max q.p2.y q.p3.y⌋⟩ := by
  simp [bbox, pyInt_of_nonneg hx0, pyInt_of_nonneg hy0,
    pyInt_of_nonneg hx1, pyInt_of_nonneg hy1]

/-- C2, witness: the amended theorem applied to the concrete nonnegative
fractional quadrilateral `fracQuad`. -/
theorem C2_witness :
    (0 ≤ min fracQuad.p0.x fracQuad.p3.x) ∧ (0 ≤ min fracQuad.p0.y fracQuad.p1.y) ∧
    (0 ≤ max fracQuad.p1.x fracQuad.p2.x) ∧ (0 ≤ max fracQuad.p2.y fracQuad.p3.y) ∧
    bbox fracQuad = ⟨⌊min fracQuad.p0.x fracQuad.p3.x⌋, ⌊min fracQuad.p0.y fracQuad.p1.y⌋,
      ⌊max fracQuad.p1.x fracQuad.p2.x⌋, ⌊max fracQuad.p2.y fracQuad.p3.y⌋⟩ :=
  ⟨by decide, by decide, by decide, by decide,
    C2_bbox_floor_on_nonneg fracQuad (by decide) (by decide) (by decide) (by decide)⟩

/-- C3, counterexample: for the form value `data:,ab,cd` the code decodes
and writes the field between the first and second comma (`ab`), not the
entire remainder after the first comma (`ab,cd`), and the two decode to
different bytes. -/
theorem C3_counterexample :
    ingest id stubB64 "/tmp" 100 ⟨none, some "data:,ab,cd"⟩
      = .ingested "/tmp/image-100.png" (stubDecode "ab") ∧
    specBase64Payload "data:,ab,cd" = "ab,cd" ∧
    stubDecode "ab" ≠ stubDecode "ab,cd" := by
  exact ⟨by decide, by decide, by decide⟩

/-- C3, amended: in base64 mode, for every form value with at least one
comma, the substring between the first and second comma (the second
comma-separated field) is the payload that gets base64-decoded and written
to `image-<unix-timestamp-seconds>.png` in the temporary directory. -/
theorem C3_base64_second_field (sf : String → String)
    (b64 : String → Except String (List Nat)) (tmpdir : String) (now : ℤ)
    (engine : String → Except String (List Detection)) (fs : FS)
    (formVal payload : String) (bytes : List Nat)
    (hsplit : (pySplitComma formVal)[1]? = some payload)
    (hb64 : b64 payload = .ok bytes) :
    ingest sf b64 tmpdir now ⟨none, some formVal⟩
      = .ingested (pathJoin tmpdir ("image-" ++ toString now ++ ".png")) bytes ∧
    process_ocr sf b64 tmpdir now engine ⟨none, some formVal⟩ fs
      = ocrStep engine (pathJoin tmpdir ("image-" ++ toString now ++ ".png"))
          (fs.write (pathJoin tmpdir ("image-" ++ toString now ++ ".png")) bytes) := by
  constructor
  · simp [ingest, hsplit, hb64]
  · simp [process_ocr, ingest, hsplit, hb64]

/-- C3, witness: the amended theorem applied to the concrete form value
`data:,ab,cd`, whose second comma-separated field is `ab`. -/
theorem C3_witness :
    (pySplitComma "data:,ab,cd")[1]? = some "ab" ∧
    stubB64 "ab" = .ok (stubDecode "ab") ∧
    ingest id stubB64 "/tmp" 100 ⟨none, some "data:,ab,cd"⟩
      = .ingested (pathJoin "/tmp" ("image-" ++ toString (100 : ℤ) ++ ".png"))
          (stubDecode "ab") :=
  ⟨by decide, rfl,
    (C3_base64_second_field id stubB64 "/tmp" 100 failEngine [] "data:,ab,cd" "ab"
      (stubDecode "ab") (by decide) rfl).1⟩

/-- C4: for every detection sequence, `words` has the same length as the
sequence, `words[i].text` equals the `i`-th detection's text (same order,
no deduplication, no trimming), and `text` is the space-join of the texts
in engine order. -/
theorem C4_assembler (result : List Detection) :
    (formatted_result result).words.length = result.length ∧
    (∀ i : ℕ, ((formatted_result result).words[i]?).map WordResult.text
        = (result[i]?).map Detection.text) ∧
    (formatted_result result).text
      = String.intercalate " " (result.map Detection.text) := by
  refine ⟨by simp [formatted_result], fun i => ?_, rfl⟩
  simp only [formatted_result, List.getElem?_map, Option.map_map]
  cases result[i]? <;> rfl

/-- C5: when `image` is present neither in the files nor in the form, the
endpoint returns 400 with an `error` body mentioning the field name
`image`, leaves the filesystem untouched (no temp file), and its result
does not depend on the engine (no OCR invocation). -/
theorem C5_missing_image (sf : String → String)
    (b64 : String → Except String (List Nat)) (tmpdir : String) (now : ℤ)
    (engine engine2 : String → Except String (List Detection)) (fs : FS) :
    process_ocr sf b64 tmpdir now engine ⟨none, none⟩ fs
      = (⟨400, .err missingImageMsg⟩, fs) ∧
    (∃ pre post, missingImageMsg = pre ++ "image" ++ post) ∧
    process_ocr sf b64 tmpdir now engine ⟨none, none⟩ fs
      = process_ocr sf b64 tmpdir now engine2 ⟨none, none⟩ fs := by
  refine ⟨rfl, ⟨"No ",
    " provided. Send a file with field name \"image\" or a base64 encoded image in the request body.",
    by decide⟩, rfl⟩

/-- C6: under the assumed corner convention (left-side corners `p0, p3` no
further right than right-side corners `p1, p2`; top-side corners `p0, p1`
no lower than bottom-side corners `p2, p3`), the reducer yields
`x0 ≤ x1` and `y0 ≤ y1`. -/
theorem C6_bbox_ordered (q : Quad)
    (h01x : q.p0.x ≤ q.p1.x) (_h02x : q.p0.x ≤ q.p2.x)
    (_h31x : q.p3.x ≤ q.p1.x) (_h32x : q.p3.x ≤ q.p2.x)
    (h02y : q.p0.y ≤ q.p2.y) (_h03y : q.p0.y ≤ q.p3.y)
    (_h12y : q.p1.y ≤ q.p2.y) (_h13y : q.p1.y ≤ q.p3.y) :
    (bbox q).x0 ≤ (bbox q).x1 ∧ (bbox q).y0 ≤ (bbox q).y1 := by
  constructor
  · exact pyInt_mono (le_trans (min_le_left _ _) (le_trans h01x (le_max_left _ _)))
  · exact pyInt_mono (le_trans (min_le_left _ _) (le_trans h02y (le_max_left _ _)))

/-- C6, witness: the invariant instantiated on the concrete conventional
quadrilateral `fracQuad`. -/
theorem C6_witness :
    fracQuad.p0.x ≤ fracQuad.p1.x ∧
    (bbox fracQuad).x0 ≤ (bbox fracQuad).x1 ∧ (bbox fracQuad).y0 ≤ (bbox fracQuad).y1 :=
  ⟨by decide, C6_bbox_ordered fracQuad (by decide) (by decide) (by decide) (by decide)
    (by decide) (by decide) (by decide) (by decide)⟩

/-- C7: the numeric normalizer maps numpy integers to equal standard
integers, numpy floats to equal standard floats, numpy arrays recursively
to plain lists, and defers every unrecognized value to the default
fallback, which fails with the serialization `TypeError`. -/
theorem C7_numpy_encoder :
    (∀ n : ℤ, NumpyEncoder.default (.npInt n) = .ok (.int n)) ∧
    (∀ x : ℚ, NumpyEncoder.default (.npFloat x) = .ok (.float x)) ∧
    (∀ xs : List NpValue, NumpyEncoder.default (.npArray xs)
        = .ok (.list (xs.map NpValue.tolist))) ∧
    (∀ tag : String, NumpyEncoder.default (.unknown tag)
        = .error ("Object of type " ++ tag ++ " is not JSON serializable")) := by
  refine ⟨fun n => rfl, fun x => rfl, fun xs => ?_, fun tag => rfl⟩
  simp [NumpyEncoder.default, NpValue.tolist, NpValue.tolistList_eq_map]

/-- C8: detection sequences that agree on quadrilaterals and texts
element-wise (and may differ arbitrarily in confidence) assemble to the
identical response — confidence has no influence on the response. -/
theorem C8_confidence_independent (r1 r2 : List Detection)
    (h : r1.map (fun d => (d.quad, d.text)) = r2.map (fun d => (d.quad, d.text))) :
    formatted_result r1 = formatted_result r2 := by
  have htext : r1.map (fun d => d.text) = r2.map (fun d => d.text) := by
    have h2 := congrArg (List.map Prod.snd) h
    simpa [List.map_map, Function.comp] using h2
  have hw : r1.map (fun d => WordResult.mk d.text (bbox d.quad))
      = r2.map (fun d => WordResult.mk d.text (bbox d.quad)) := by
    have h2 := congrArg
      (List.map (fun p : Quad × String => WordResult.mk p.2 (bbox p.1))) h
    simpa [List.map_map, Function.comp] using h2
  simp [formatted_result, htext, hw]

/-- C8, witness: two singleton detection sequences differing only in
confidence (`9/10` versus `1/10`) produce the same response. -/
theorem C8_witness :
    [wdetA].map (fun d => (d.quad, d.text)) = [wdetB].map (fun d => (d.quad, d.text)) ∧
    formatted_result [wdetA] = formatted_result [wdetB] :=
  ⟨by decide, C8_confidence_independent [wdetA] [wdetB] (by decide)⟩

/-- C9: when the engine returns zero detections, the endpoint still
succeeds with status 200 and body exactly `{text := "", words := []}`, in
file mode as well as in base64 mode. -/
theorem C9_empty_detections (sf : String → String)
    (b64 : String → Except String (List Nat)) (tmpdir : String) (now : ℤ)
    (engine : String → Except String (List Detection)) (fs : FS)
    (file : UploadedFile) (formVal : String)
    (hfile : engine (pathJoin tmpdir (sf file.filename)) = .ok []) :
    (process_ocr sf b64 tmpdir now engine ⟨some file, none⟩ fs).1
        = ⟨200, .ok ⟨"", []⟩⟩ ∧
    (∀ payload bytes, (pySplitComma formVal)[1]? = some payload →
      b64 payload = .ok bytes →
      engine (pathJoin tmpdir ("image-" ++ toString now ++ ".png")) = .ok [] →
      (process_ocr sf b64 tmpdir now engine ⟨none, some formVal⟩ fs).1
        = ⟨200, .ok ⟨"", []⟩⟩) := by
  constructor
  · simp [process_ocr, ingest, ocrStep, hfile, formatted_result]
    rfl
  · intro payload bytes hsplit hb64 hengine
    simp [process_ocr, ingest, ocrStep, hsplit, hb64, hengine, formatted_result]
    rfl

/-- C9, witness: a concrete file upload with an engine stub returning no
detections yields status 200 and the empty response body. -/
theorem C9_witness :
    emptyEngine (pathJoin "/tmp" (id "a.png")) = .ok [] ∧
    (process_ocr id stubB64 "/tmp" 100 emptyEngine ⟨some ⟨"a.png", [7]⟩, none⟩ []).1
      = ⟨200, .ok ⟨"", []⟩⟩ :=
  ⟨rfl, (C9_empty_detections id stubB64 "/tmp" 100 emptyEngine [] ⟨"a.png", [7]⟩ "" rfl).1⟩

/-- C10: `initialize_ocr` is idempotent once the engine instance exists,
and readiness is monotone — neither initialization, nor the health check,
nor the initialization head of OCR processing ever resets
`is_initialized` from true back to false. -/
theorem C10_init_idempotent_monotone :
    (∀ reader r s, s.ocr = some r → initialize_ocr reader s = s) ∧
    (∀ reader s, s.is_initialized = true →
      (initialize_ocr reader s).is_initialized = true) ∧
    (∀ s : ServerState, (health_check s).1 = s) ∧
    (∀ reader s, s.is_initialized = true →
      (process_ocr_state reader s).is_initialized = true) := by
  refine ⟨fun reader r s h => ?_, fun reader s h => ?_, fun s => rfl, fun reader s h => ?_⟩
  · simp [initialize_ocr, h]
  · unfold initialize_ocr
    split <;> simp [h]
  · simp [process_ocr_state, h]

/-- C10, witness: on the state that already holds an engine instance and
is initialized, `initialize_ocr` leaves the state unchanged. -/
theorem C10_witness :
    (⟨some 0, true⟩ : ServerState).ocr = some 0 ∧
    initialize_ocr 5 ⟨some 0, true⟩ = ⟨some 0, true⟩ :=
  ⟨rfl, C10_init_idempotent_monotone.1 5 0 ⟨some 0, true⟩ rfl⟩

end EasyOcrServer
